import Mathlib

/-!
Verification of the knowledge-matching core of a Telegram question-answering
bot (`src/bot.py`).  The Python source is shallowly embedded: the knowledge
base is a list of question/answer records, the structured matcher
`find_best_answer` is a recursive scan, and the message handler
`handle_message` is a pure function parameterised by the generative backend,
returning the reply together with the number of backend invocations.
-/

set_option maxRecDepth 4096

/-- A knowledge-base record, as read by `csv.DictReader` and used by the bot:
a `question` string and an `answer` string. -/
structure KBItem where
  question : String
  answer : String
deriving DecidableEq, Repr

/-- `isPre n h` : the character list `n` is an initial segment of `h`
(Python string containment is checked via this helper). -/
def isPre : List Char → List Char → Bool
  | [], _ => true
  | _ :: _, [] => false
  | a :: as, b :: bs => a == b && isPre as bs

/-- `isSub n h` : `n` occurs as a contiguous substring of `h`; this is the
semantics of the Python expression `n in h` on strings.  The empty needle
occurs in every haystack. -/
def isSub (n : List Char) : List Char → Bool
  | [] => isPre n []
  | b :: bs => isPre n (b :: bs) || isSub n bs

/-- Python `str.lower()` applied characterwise (ASCII case folding, which is
all the knowledge base and claims exercise). -/
def lowerChars (l : List Char) : List Char := l.map Char.toLower

/-- The loop body of `find_best_answer` (src/bot.py lines 47-50): scan the
knowledge base in order, returning the answer of the first item whose
lowercased question occurs inside the (already lowercased) query. -/
def findIn (q : List Char) : List KBItem → Option String
  | [] => none
  | item :: rest =>
    if isSub (lowerChars item.question.data) q then some item.answer
    else findIn q rest

/-- `find_best_answer` (src/bot.py lines 45-50): lowercase the query once,
then scan `knowledge_base` for the first containment match; `none` models
the Python `return None`. -/
def find_best_answer (kb : List KBItem) (query : String) : Option String :=
  findIn (lowerChars query.data) kb

/-- The containment test the matcher applies to a single store entry:
the entry's lowercased question occurs inside the lowercased query. -/
def matchesB (item : KBItem) (query : String) : Bool :=
  isSub (lowerChars item.question.data) (lowerChars query.data)

/-- Python `s.strip()` on the character list: drop ASCII whitespace from both
ends, leaving the interior untouched. -/
def stripChars (l : List Char) : List Char :=
  ((l.dropWhile Char.isWhitespace).reverse.dropWhile Char.isWhitespace).reverse

/-- Python `s.strip()` as a string operation. -/
def strip (s : String) : String := String.mk (stripChars s.data)

/-- The serialized fallback context (src/bot.py line 82): the first 30
knowledge-base entries, each rendered as `question: answer`, in store order. -/
def fallbackContext (kb : List KBItem) : List String :=
  (kb.take 30).map (fun k => k.question ++ ": " ++ k.answer)

/-- The prompt assembled for the generative backend (src/bot.py lines 83-88):
fixed framing, the newline-joined fallback context, and the user text. -/
def buildPrompt (kb : List KBItem) (user_text : String) : String :=
  let context_text := String.intercalate "\n" (fallbackContext kb)
  "You are GrowTogetherFrow’s assistant. Use ONLY the following knowledge to answer clearly and positively.\n\nKnowledge Base:\n"
    ++ context_text ++ "\n\nUser Question: " ++ user_text
    ++ "\nAnswer in a friendly, motivational tone:"

/-- Outcome of one call to the generative backend, as observed by the
`try` block of `handle_message`:
* `raises err` — the API call itself raised an exception carrying detail `err`;
* `content none` — the call returned but `message.content` was `None`
  (not text), so the subsequent `.strip()` raises `AttributeError`;
* `content (some c)` — the call returned completion text `c`. -/
inductive BackendResult where
  | raises (err : String)
  | content (text : Option String)

/-- The fixed apology returned from the `except` branch of `handle_message`
(src/bot.py line 99). -/
def apologyText : String :=
  "❌ Sorry, there was an issue generating a response. Please try again later."

/-- Python truthiness of `answer` at src/bot.py line 76: `None` and the empty
string are falsy, every other string is truthy. -/
def pyTruthy : Option String → Bool
  | none => false
  | some s => s != ""

/-- `handle_message` (src/bot.py lines 67-101), restricted to its reply
computation and parameterised by the generative backend.  Returns the reply
text together with the number of backend calls made (0 or 1).  The `try`
block is modelled by matching on the backend outcome: any exception — from
the API call itself or from `.strip()` on a `None` content — lands in the
`except` branch, which ignores the error detail and answers `apologyText`. -/
def handle_message (kb : List KBItem) (backend : String → BackendResult)
    (user_text : String) : String × Nat :=
  let answer := find_best_answer kb user_text
  if pyTruthy answer then (answer.getD "", 0)
  else
    match backend (buildPrompt kb user_text) with
    | BackendResult.raises _ => (apologyText, 1)
    | BackendResult.content none => (apologyText, 1)
    | BackendResult.content (some c) => (strip c, 1)

/-- A parsed CSV row as produced by `csv.DictReader`: an association list
from header names to field values. -/
def Row : Type := List (String × String)

/-- `load_knowledge_csv` (src/bot.py lines 30-41) applied to the parsed rows:
keep exactly the rows in which both a `question` and an `answer` field are
present, in file order.  No trimming and no emptiness check is performed. -/
def load_knowledge_csv (rows : List Row) : List KBItem :=
  rows.filterMap (fun row =>
    match List.lookup "question" row, List.lookup "answer" row with
    | some q, some a => some { question := q, answer := a }
    | _, _ => none)

/-- State-passing reading of the `for item in knowledge_base` loop of
`find_best_answer`: the scan is threaded through the store it traverses and
hands the store back, making any mutation of the store observable in the
returned value. -/
def findStep (query : List Char) : List KBItem → Option String × List KBItem
  | [] => (none, [])
  | item :: rest =>
    if isSub (lowerChars item.question.data) query then (some item.answer, item :: rest)
    else
      let r := findStep query rest
      (r.1, item :: r.2)

/-- Outcome of `main` (src/bot.py lines 104-117). -/
inductive MainOutcome where
  | refusedToStart
  | running
deriving DecidableEq, Repr

/-- Python truthiness of `not VAR` for an environment variable read with
`os.getenv`: true when the variable is absent (`None`) or empty. -/
def pyFalsy : Option String → Bool
  | none => true
  | some s => s == ""

/-- The startup guard of `main` (src/bot.py lines 105-107): if either
credential is falsy, `main` returns before the application is built, no
handler is registered and polling never starts; otherwise the bot runs.
(Named `mainEntry` because Lean reserves the identifier `main`.) -/
def mainEntry (telegram_token openai_api_key : Option String) : MainOutcome :=
  if pyFalsy telegram_token || pyFalsy openai_api_key then MainOutcome.refusedToStart
  else MainOutcome.running

/-- The empty needle occurs in every haystack, as in Python. -/
theorem isSub_nil (l : List Char) : isSub [] l = true := by
  cases l with
  | nil => rfl
  | cons b bs => simp [isSub, isPre]

/-- If no store entry matches the query, the scan of `find_best_answer`
falls off the end of the loop and returns `None`. -/
theorem find_best_answer_eq_none (kb : List KBItem) (query : String)
    (hnone : ∀ item ∈ kb, matchesB item query = false) :
    find_best_answer kb query = none := by
  induction kb with
  | nil => rfl
  | cons head tail ih =>
    have hh : isSub (lowerChars head.question.data) (lowerChars query.data) = false :=
      hnone head (List.mem_cons_self head tail)
    simp only [find_best_answer, findIn, hh, Bool.false_eq_true, if_false]
    exact ih (fun item hmem => hnone item (List.mem_cons_of_mem head hmem))

/-- When the matcher returns a non-empty answer, `handle_message` passes it
through verbatim and never reaches the generative branch. -/
theorem handle_message_direct (kb : List KBItem) (backend : String → BackendResult)
    (u a : String) (hfind : find_best_answer kb u = some a) (hne : a ≠ "") :
    handle_message kb backend u = (a, 0) := by
  have ht : pyTruthy (some a) = true := by
    simp only [pyTruthy, bne_iff_ne, ne_eq, decide_eq_true_eq]
    exact hne
  simp [handle_message, hfind, ht]

/-- When the truthiness test on the matcher result fails, `handle_message`
takes the generative branch and calls the backend exactly once. -/
theorem handle_message_fallback (kb : List KBItem) (backend : String → BackendResult)
    (u : String) (hfall : pyTruthy (find_best_answer kb u) = false) :
    (handle_message kb backend u).2 = 1 := by
  simp only [handle_message, hfall, Bool.false_eq_true, if_false]
  cases backend (buildPrompt kb u) with
  | raises err => rfl
  | content t => cases t <;> rfl

/-- C1: the structured matcher lowercases the utterance and returns the
answer of the first store entry (in store order) whose lowercased question
occurs as a substring of the lowercased utterance. -/
theorem c1_structured_first_match (kb : List KBItem) (query : String) (n : Nat)
    (hn : n < kb.length)
    (hmatch : matchesB (kb.get ⟨n, hn⟩) query = true)
    (hfirst : ∀ m (hm : m < n), matchesB (kb.get ⟨m, Nat.lt_trans hm hn⟩) query = false) :
    find_best_answer kb query = some (kb.get ⟨n, hn⟩).answer := by
  induction kb generalizing n with
  | nil => exact absurd hn (Nat.not_lt_zero n)
  | cons head tail ih =>
    cases n with
    | zero =>
      have h0 : isSub (lowerChars head.question.data) (lowerChars query.data) = true := hmatch
      simp [find_best_answer, findIn, h0]
    | succ m =>
      have hhead : isSub (lowerChars head.question.data) (lowerChars query.data) = false :=
        hfirst 0 (Nat.succ_pos m)
      simp only [find_best_answer, findIn, hhead, Bool.false_eq_true, if_false]
      exact ih m (Nat.lt_of_succ_lt_succ hn) hmatch
        (fun k hk => hfirst (k + 1) (Nat.succ_lt_succ hk))

/-- C1 witness: on the store `[(hours, 9-5), (location, online)]` and the
utterance `what are your hours today`, the matcher answers `9-5`. -/
theorem c1_witness :
    find_best_answer
      [{ question := "hours", answer := "9-5" }, { question := "location", answer := "online" }]
      "what are your hours today" = some "9-5" :=
  c1_structured_first_match
    [{ question := "hours", answer := "9-5" }, { question := "location", answer := "online" }]
    "what are your hours today" 0 (by decide) (by decide)
    (fun m hm => absurd hm (Nat.not_lt_zero m))

/-- C2: when no entry's lowercased question occurs in the lowercased
utterance, the matcher returns `None` and the generative fallback is taken,
whose context is exactly the first 30 store entries (all of them when fewer
than 30), each serialized as `question: answer`, in store order; for an
empty store the context is empty. -/
theorem c2_fallback_first_thirty (kb : List KBItem) (backend : String → BackendResult)
    (query : String) (hnone : ∀ item ∈ kb, matchesB item query = false) :
    find_best_answer kb query = none ∧
    (fallbackContext kb).length = min 30 kb.length ∧
    (∀ i, i < (fallbackContext kb).length →
      (fallbackContext kb)[i]? = (kb[i]?).map (fun k => k.question ++ ": " ++ k.answer)) ∧
    (kb = [] → fallbackContext kb = []) ∧
    (handle_message kb backend query).2 = 1 := by
  have hfind : find_best_answer kb query = none := find_best_answer_eq_none kb query hnone
  have hlen : (fallbackContext kb).length = min 30 kb.length := by
    simp [fallbackContext]
  refine ⟨hfind, hlen, ?_, ?_, ?_⟩
  · intro i hi
    have hi30 : i < 30 := by
      rw [hlen] at hi
      exact Nat.lt_of_lt_of_le hi (Nat.min_le_left _ _)
    simp [fallbackContext, List.getElem?_take, hi30]
  · intro h
    subst h
    rfl
  · exact handle_message_fallback kb backend query (by simp [hfind, pyTruthy])

/-- C2 witness: on the two-entry example store and the utterance
`do you ship internationally` no entry matches, so the matcher returns
`None`, the context is both entries serialized in order, and the backend is
invoked once. -/
theorem c2_witness :
    find_best_answer
      [{ question := "hours", answer := "9-5" }, { question := "location", answer := "online" }]
      "do you ship internationally" = none ∧
    (fallbackContext
      [{ question := "hours", answer := "9-5" }, { question := "location", answer := "online" }]).length
      = min 30 2 ∧
    (∀ i, i < (fallbackContext
        [{ question := "hours", answer := "9-5" }, { question := "location", answer := "online" }]).length →
      (fallbackContext
        [{ question := "hours", answer := "9-5" }, { question := "location", answer := "online" }])[i]?
        = (([{ question := "hours", answer := "9-5" },
             { question := "location", answer := "online" }] : List KBItem)[i]?).map
            (fun k => k.question ++ ": " ++ k.answer)) ∧
    ([{ question := "hours", answer := "9-5" }, { question := "location", answer := "online" }]
        = ([] : List KBItem) →
      fallbackContext
        [{ question := "hours", answer := "9-5" }, { question := "location", answer := "online" }] = []) ∧
    (handle_message
      [{ question := "hours", answer := "9-5" }, { question := "location", answer := "online" }]
      (fun _ => BackendResult.raises "offline") "do you ship internationally").2 = 1 :=
  c2_fallback_first_thirty
    [{ question := "hours", answer := "9-5" }, { question := "location", answer := "online" }]
    (fun _ => BackendResult.raises "offline") "do you ship internationally" (by decide)

/-- C3 counterexample: the store entry `(hi, empty answer)` makes the matcher
produce `DirectAnswer` of the empty string on the utterance `hi`, yet the
handler does not return that text: the Python truthiness test `if answer:`
treats the empty answer as absent, the backend is invoked, and the reply is
the apology (with a failing backend) instead of the matched text. -/
theorem c3_counterexample :
    find_best_answer [{ question := "hi", answer := "" }] "hi" = some "" ∧
    handle_message [{ question := "hi", answer := "" }]
      (fun _ => BackendResult.raises "boom") "hi" = (apologyText, 1) :=
  ⟨by decide, by decide⟩

/-- C3 (amended): for every utterance on which the matcher produces
`DirectAnswer(text)` with `text` non-empty, the handler returns `text`
unchanged and the generative backend is never invoked. -/
theorem c3_direct_answer_skips_backend (kb : List KBItem)
    (backend : String → BackendResult) (u a : String)
    (hfind : find_best_answer kb u = some a) (hne : a ≠ "") :
    handle_message kb backend u = (a, 0) :=
  handle_message_direct kb backend u a hfind hne

/-- C3 witness: with the store `[(ping, pong)]` and utterance `ping me`, the
reply is `pong` and the backend is called zero times. -/
theorem c3_witness :
    handle_message [{ question := "ping", answer := "pong" }]
      (fun _ => BackendResult.raises "unreachable") "ping me" = ("pong", 0) :=
  c3_direct_answer_skips_backend [{ question := "ping", answer := "pong" }]
    (fun _ => BackendResult.raises "unreachable") "ping me" "pong" (by decide) (by decide)

/-- C4: whenever the fallback branch is taken and the backend raises — with
any error detail whatsoever — the handler replies with the fixed apology
text, which carries none of that detail, and the backend was called exactly
once. -/
theorem c4_backend_failure_apology (kb : List KBItem)
    (backend : String → BackendResult) (u err : String)
    (hfall : pyTruthy (find_best_answer kb u) = false)
    (hfail : backend (buildPrompt kb u) = BackendResult.raises err) :
    handle_message kb backend u = (apologyText, 1) := by
  simp [handle_message, hfall, hfail]

/-- C4 witness: an empty store forces the fallback, a backend raising the
detail `socket timeout` yields the apology, and exactly one call was made. -/
theorem c4_witness :
    handle_message [] (fun _ => BackendResult.raises "socket timeout") "x"
      = (apologyText, 1) :=
  c4_backend_failure_apology [] (fun _ => BackendResult.raises "socket timeout")
    "x" "socket timeout" (by decide) rfl

/-- C5: whenever the fallback branch is taken and the backend returns
completion text, the handler replies with that text stripped of leading and
trailing whitespace, and otherwise unmodified. -/
theorem c5_success_stripped (kb : List KBItem)
    (backend : String → BackendResult) (u c : String)
    (hfall : pyTruthy (find_best_answer kb u) = false)
    (hok : backend (buildPrompt kb u) = BackendResult.content (some c)) :
    handle_message kb backend u = (strip c, 1) := by
  simp [handle_message, hfall, hok]

/-- C5 witness: an empty store forces the fallback, and the completion
` hello there ` comes back as `hello there` after one backend call. -/
theorem c5_witness :
    handle_message [] (fun _ => BackendResult.content (some " hello there ")) "x"
      = ("hello there", 1) := by
  have h := c5_success_stripped [] (fun _ => BackendResult.content (some " hello there "))
    "x" " hello there " (by decide) rfl
  rw [h]
  rfl

/-- C6 counterexample: with a backend that succeeds with the empty completion
string, the handler replies with the empty string — `"".strip()` raises no
exception — rather than with the apology, so an empty response is not
treated as a failure. -/
theorem c6_counterexample :
    handle_message [] (fun _ => BackendResult.content (some "")) "x" = ("", 1) ∧
    ("" : String) ≠ apologyText :=
  ⟨by decide, by decide⟩

/-- C6 (amended): on the fallback path a non-text (`None`) backend response
is treated as a failure and answered with the fixed apology, while an
empty-string completion is passed through as an empty reply, not the
apology. -/
theorem c6_nontext_apology_empty_passthrough (kb : List KBItem)
    (backend : String → BackendResult) (u : String)
    (hfall : pyTruthy (find_best_answer kb u) = false) :
    (backend (buildPrompt kb u) = BackendResult.content none →
      handle_message kb backend u = (apologyText, 1)) ∧
    (backend (buildPrompt kb u) = BackendResult.content (some "") →
      handle_message kb backend u = ("", 1)) := by
  constructor
  · intro h
    simp [handle_message, hfall, h]
  · intro h
    simp only [handle_message, hfall, Bool.false_eq_true, if_false, h]
    rfl

/-- C6 witness: an empty store forces the fallback and a `None` content
yields the apology after one call. -/
theorem c6_witness :
    handle_message [] (fun _ => BackendResult.content none) "x" = (apologyText, 1) :=
  (c6_nontext_apology_empty_passthrough [] (fun _ => BackendResult.content none)
    "x" (by decide)).1 rfl

/-- C7 counterexample: a row whose `question` field is whitespace-only and
whose `answer` field is empty is retained by `load_knowledge_csv`, even
though both fields trim to the empty string — no entry is dropped for
emptiness. -/
theorem c7_counterexample :
    load_knowledge_csv [[("question", "  "), ("answer", "")]]
      = [{ question := "  ", answer := "" }] ∧
    strip "  " = "" ∧ strip "" = "" :=
  ⟨by decide, by decide, by decide⟩

/-- C7 (amended): the constructed store contains exactly the entries whose
raw row carries both a `question` and an `answer` field; presence of the
keys is the only filter — no trimming and no emptiness check is applied, so
empty or whitespace-only fields are retained. -/
theorem c7_store_keeps_rows_with_both_keys (rows : List Row) (item : KBItem) :
    item ∈ load_knowledge_csv rows ↔
      ∃ row ∈ rows, List.lookup "question" row = some item.question ∧
        List.lookup "answer" row = some item.answer := by
  simp only [load_knowledge_csv, List.mem_filterMap]
  constructor
  · rintro ⟨row, hrow, hf⟩
    refine ⟨row, hrow, ?_⟩
    cases hq : List.lookup "question" row with
    | none => rw [hq] at hf; exact absurd hf (by simp)
    | some q =>
      cases ha : List.lookup "answer" row with
      | none => rw [hq, ha] at hf; exact absurd hf (by simp)
      | some a =>
        rw [hq, ha] at hf
        simp only [Option.some_inj] at hf
        rw [← hf]
        exact ⟨rfl, rfl⟩
  · rintro ⟨row, hrow, hq, ha⟩
    refine ⟨row, hrow, ?_⟩
    rw [hq, ha]

/-- The state-passing scan returns the matcher result together with the
store it was given, unchanged. -/
theorem findStep_eq (kb : List KBItem) (query : String) :
    findStep (lowerChars query.data) kb = (find_best_answer kb query, kb) := by
  induction kb with
  | nil => rfl
  | cons head tail ih =>
    cases hc : isSub (lowerChars head.question.data) (lowerChars query.data) with
    | true => simp [findStep, find_best_answer, findIn, hc]
    | false =>
      simp only [findStep, find_best_answer, findIn, hc, Bool.false_eq_true, if_false, ih]

/-- C8: the matcher is pure and idempotent — one scan hands the store back
with no entry added, removed or mutated, its result is exactly
`find_best_answer`, and a second scan over the returned store yields the
identical outcome. -/
theorem c8_matcher_pure_idempotent (kb : List KBItem) (query : String) :
    (findStep (lowerChars query.data) kb).2 = kb ∧
    (findStep (lowerChars query.data) kb).1 = find_best_answer kb query ∧
    findStep (lowerChars query.data) ((findStep (lowerChars query.data) kb).2)
      = findStep (lowerChars query.data) kb := by
  rw [findStep_eq]
  exact ⟨rfl, rfl, by rw [findStep_eq]⟩

/-- C9: if either credential is absent, `main` refuses to start: it returns
before the application is constructed, so no message handling can occur. -/
theorem c9_missing_credentials_refuse_start (telegram_token openai_api_key : Option String)
    (h : telegram_token = none ∨ openai_api_key = none) :
    mainEntry telegram_token openai_api_key = MainOutcome.refusedToStart := by
  cases h with
  | inl h1 => subst h1; simp [mainEntry, pyFalsy]
  | inr h2 => subst h2; simp [mainEntry, pyFalsy]

/-- C9 witness: with the transport token absent and an API key present, the
process refuses to start. -/
theorem c9_witness :
    mainEntry none (some "sk-test") = MainOutcome.refusedToStart :=
  c9_missing_credentials_refuse_start none (some "sk-test") (Or.inl rfl)

/-- C10 counterexample: with the store `[(empty question, empty answer)]`
the matcher does return a `DirectAnswer` on every utterance, yet the
generative fallback is still reached — the empty matched answer fails the
`if answer:` truthiness test, so the backend is invoked once. -/
theorem c10_counterexample :
    find_best_answer [{ question := "", answer := "" }] "hello" = some "" ∧
    (handle_message [{ question := "", answer := "" }]
      (fun _ => BackendResult.raises "down") "hello").2 = 1 :=
  ⟨by decide, by decide⟩

/-- An empty stored question matches every utterance, so the scan always
produces some answer. -/
theorem find_some_of_empty_question (kb : List KBItem) (u : String)
    (hq : ∃ item ∈ kb, item.question = "") :
    ∃ a, find_best_answer kb u = some a := by
  induction kb with
  | nil =>
    obtain ⟨item, hmem, _⟩ := hq
    exact absurd hmem (List.not_mem_nil item)
  | cons head tail ih =>
    cases hc : isSub (lowerChars head.question.data) (lowerChars u.data) with
    | true => exact ⟨head.answer, by simp [find_best_answer, findIn, hc]⟩
    | false =>
      obtain ⟨item, hmem, hqe⟩ := hq
      rcases List.mem_cons.mp hmem with h1 | h2
      · subst h1
        rw [hqe] at hc
        rw [show lowerChars ("" : String).data = [] from rfl, isSub_nil] at hc
        exact absurd hc (by simp)
      · obtain ⟨a, ha⟩ := ih ⟨item, h2, hqe⟩
        refine ⟨a, ?_⟩
        simp only [find_best_answer, findIn, hc, Bool.false_eq_true, if_false]
        exact ha

/-- C10 (amended): if some store entry has an empty question, the matcher
returns a `DirectAnswer` for every utterance; and when an empty-question
entry with a non-empty answer heads the store, the generative fallback is
indeed unreachable — but an empty answer fails the handler's truthiness
test and the fallback still runs. -/
theorem c10_empty_question_always_matches (kb : List KBItem)
    (backend : String → BackendResult) (u : String)
    (hq : ∃ item ∈ kb, item.question = "") :
    (∃ a, find_best_answer kb u = some a) ∧
    (∀ q0 a0 rest, kb = { question := q0, answer := a0 } :: rest → q0 = "" → a0 ≠ "" →
      handle_message kb backend u = (a0, 0)) := by
  refine ⟨find_some_of_empty_question kb u hq, ?_⟩
  intro q0 a0 rest hkb hq0 ha0
  subst hkb
  subst hq0
  have hfind : find_best_answer ({ question := "", answer := a0 } :: rest) u = some a0 := by
    simp only [find_best_answer, findIn]
    rw [show lowerChars ("" : String).data = [] from rfl, isSub_nil]
    rfl
  exact handle_message_direct _ backend u a0 hfind ha0

/-- C10 witness: with the store `[(empty question, ok)]` every utterance is
answered directly — here `zzz` gets `ok` with zero backend calls. -/
theorem c10_witness :
    (∃ a, find_best_answer [{ question := "", answer := "ok" }] "zzz" = some a) ∧
    handle_message [{ question := "", answer := "ok" }]
      (fun _ => BackendResult.content (some "never")) "zzz" = ("ok", 0) :=
  ⟨(c10_empty_question_always_matches [{ question := "", answer := "ok" }]
      (fun _ => BackendResult.content (some "never")) "zzz"
      ⟨{ question := "", answer := "ok" }, List.mem_cons_self _ _, rfl⟩).1,
   (c10_empty_question_always_matches [{ question := "", answer := "ok" }]
      (fun _ => BackendResult.content (some "never")) "zzz"
      ⟨{ question := "", answer := "ok" }, List.mem_cons_self _ _, rfl⟩).2
     "" "ok" [] rfl rfl (by decide)⟩
